import Mathlib

/-!
Shallow embedding of the weather-data normalization core of
`src/srv/server.go` (package `srv`): the condition mapping
`weatherCodeToCondition`, the wind-compass helper
`windDirectionToCompass`, and the hourly-forecast normalization loop of
`fetchWeather`, together with theorems settling the specification claims
about them.

Modelling conventions:
* Go `int` is modelled as `Int`; Go `float64` fields that the code only
  copies (temperatures, wind speed, precipitation) are carried as `ℚ`,
  since no arithmetic is ever performed on them.
* The icon strings in the source file are unusual multi-byte sequences
  (mis-encoded emoji); they are constructed below by explicit Unicode
  codepoint so that each Lean string is character-for-character the
  string literal that appears in the source file.
-/

/-- Icon returned for code 0 during the day (source line 182). -/
def icon0Day : String :=
  String.mk [Char.ofNat 0xE2, Char.ofNat 0x2DC, Char.ofNat 0x20AC, Char.ofNat 0xEF, Char.ofNat 0xB8]

/-- Icon returned for codes 0 and 1 at night (source lines 184, 189). -/
def iconMoon : String :=
  String.mk [Char.ofNat 0xF0, Char.ofNat 0x178, Char.ofNat 0x152, Char.ofNat 0x2122]

/-- Icon returned for code 1 during the day (source line 187). -/
def icon1Day : String :=
  String.mk [Char.ofNat 0xF0, Char.ofNat 0x178, Char.ofNat 0x152, Char.ofNat 0xA4, Char.ofNat 0xEF, Char.ofNat 0xB8]

/-- Icon for code 2, partly cloudy (source line 191). -/
def iconPartly : String :=
  String.mk [Char.ofNat 0xE2, Char.ofNat 0x203A, Char.ofNat 0x2026]

/-- Icon for code 3, overcast (source line 193). -/
def iconOvercast : String :=
  String.mk [Char.ofNat 0xE2, Char.ofNat 0x2DC, Char.ofNat 0xEF, Char.ofNat 0xB8]

/-- Icon for codes 45 and 48, foggy (source line 195). -/
def iconFog : String :=
  String.mk [Char.ofNat 0xF0, Char.ofNat 0x178, Char.ofNat 0x152, Char.ofNat 0xAB, Char.ofNat 0xEF, Char.ofNat 0xB8]

/-- Icon for drizzle and rain codes 51, 53, 55, 61, 63, 65 (source lines 197, 201). -/
def iconRain : String :=
  String.mk [Char.ofNat 0xF0, Char.ofNat 0x178, Char.ofNat 0x152, Char.ofNat 0xA7, Char.ofNat 0xEF, Char.ofNat 0xB8]

/-- Icon for freezing drizzle and freezing rain codes 56, 57, 66, 67 (source lines 199, 203). -/
def iconRainSnowflake : String :=
  String.mk [Char.ofNat 0xF0, Char.ofNat 0x178, Char.ofNat 0x152, Char.ofNat 0xA7, Char.ofNat 0xEF, Char.ofNat 0xB8,
             Char.ofNat 0xE2, Char.ofNat 0x201E, Char.ofNat 0xEF, Char.ofNat 0xB8]

/-- Icon for snow codes 71, 73, 75, 77, 85, 86 (source lines 205, 207, 211). -/
def iconSnow : String :=
  String.mk [Char.ofNat 0xF0, Char.ofNat 0x178, Char.ofNat 0x152, Char.ofNat 0xA8, Char.ofNat 0xEF, Char.ofNat 0xB8]

/-- Icon for rain-shower codes 80, 81, 82 (source line 209). -/
def iconShowers : String :=
  String.mk [Char.ofNat 0xF0, Char.ofNat 0x178, Char.ofNat 0x152, Char.ofNat 0xA6, Char.ofNat 0xEF, Char.ofNat 0xB8]

/-- Icon for thunderstorm codes 95, 96, 99 (source lines 213, 215). -/
def iconThunder : String :=
  String.mk [Char.ofNat 0xE2, Char.ofNat 0x203A, Char.ofNat 0x2C6, Char.ofNat 0xEF, Char.ofNat 0xB8]

/-- Icon for the default (unknown) branch (source line 217). -/
def iconUnknown : String :=
  String.mk [Char.ofNat 0xE2, Char.ofNat 0x201C]

/-- `weatherCodeToCondition` (source lines 178-219): the Go `switch` on the
provider weather code, returning the `(label, icon)` pair. -/
def weatherCodeToCondition (code : Int) (isDay : Bool) : String × String :=
  if code = 0 then
    if isDay then ("Clear sky", icon0Day) else ("Clear sky", iconMoon)
  else if code = 1 then
    if isDay then ("Mainly clear", icon1Day) else ("Mainly clear", iconMoon)
  else if code = 2 then ("Partly cloudy", iconPartly)
  else if code = 3 then ("Overcast", iconOvercast)
  else if code = 45 ∨ code = 48 then ("Foggy", iconFog)
  else if code = 51 ∨ code = 53 ∨ code = 55 then ("Drizzle", iconRain)
  else if code = 56 ∨ code = 57 then ("Freezing drizzle", iconRainSnowflake)
  else if code = 61 ∨ code = 63 ∨ code = 65 then ("Rain", iconRain)
  else if code = 66 ∨ code = 67 then ("Freezing rain", iconRainSnowflake)
  else if code = 71 ∨ code = 73 ∨ code = 75 then ("Snow", iconSnow)
  else if code = 77 then ("Snow grains", iconSnow)
  else if code = 80 ∨ code = 81 ∨ code = 82 then ("Rain showers", iconShowers)
  else if code = 85 ∨ code = 86 then ("Snow showers", iconSnow)
  else if code = 95 then ("Thunderstorm", iconThunder)
  else if code = 96 ∨ code = 99 then ("Thunderstorm with hail", iconThunder)
  else ("Unknown", iconUnknown)

/-- The weather codes that appear as cases in the `switch` of
`weatherCodeToCondition`. -/
def tableCodes : List Int :=
  [0, 1, 2, 3, 45, 48, 51, 53, 55, 56, 57, 61, 63, 65, 66, 67,
   71, 73, 75, 77, 80, 81, 82, 85, 86, 95, 96, 99]

/-- C1: every weather code listed in the condition table maps to exactly the
documented `(label, icon)` pair, the grouped codes (45/48, 51/53/55, 56/57,
61/63/65, 66/67, 71/73/75, 80/81/82, 85/86, 96/99) share a label and icon,
and for codes 0 and 1 the `isDay` flag selects a day icon that is distinct
from the shared night (moon) icon. -/
theorem condition_table_exact :
    (∀ d : Bool, weatherCodeToCondition 0 d = ("Clear sky", if d then icon0Day else iconMoon)) ∧
    (∀ d : Bool, weatherCodeToCondition 1 d = ("Mainly clear", if d then icon1Day else iconMoon)) ∧
    (∀ d : Bool, weatherCodeToCondition 2 d = ("Partly cloudy", iconPartly)) ∧
    (∀ d : Bool, weatherCodeToCondition 3 d = ("Overcast", iconOvercast)) ∧
    (∀ d : Bool, ∀ c ∈ ([45, 48] : List Int), weatherCodeToCondition c d = ("Foggy", iconFog)) ∧
    (∀ d : Bool, ∀ c ∈ ([51, 53, 55] : List Int), weatherCodeToCondition c d = ("Drizzle", iconRain)) ∧
    (∀ d : Bool, ∀ c ∈ ([56, 57] : List Int), weatherCodeToCondition c d = ("Freezing drizzle", iconRainSnowflake)) ∧
    (∀ d : Bool, ∀ c ∈ ([61, 63, 65] : List Int), weatherCodeToCondition c d = ("Rain", iconRain)) ∧
    (∀ d : Bool, ∀ c ∈ ([66, 67] : List Int), weatherCodeToCondition c d = ("Freezing rain", iconRainSnowflake)) ∧
    (∀ d : Bool, ∀ c ∈ ([71, 73, 75] : List Int), weatherCodeToCondition c d = ("Snow", iconSnow)) ∧
    (∀ d : Bool, weatherCodeToCondition 77 d = ("Snow grains", iconSnow)) ∧
    (∀ d : Bool, ∀ c ∈ ([80, 81, 82] : List Int), weatherCodeToCondition c d = ("Rain showers", iconShowers)) ∧
    (∀ d : Bool, ∀ c ∈ ([85, 86] : List Int), weatherCodeToCondition c d = ("Snow showers", iconSnow)) ∧
    (∀ d : Bool, weatherCodeToCondition 95 d = ("Thunderstorm", iconThunder)) ∧
    (∀ d : Bool, ∀ c ∈ ([96, 99] : List Int), weatherCodeToCondition c d = ("Thunderstorm with hail", iconThunder)) ∧
    icon0Day ≠ iconMoon ∧ icon1Day ≠ iconMoon := by
  decide

/-- C7: every integer code not present in the condition table maps to the
label `"Unknown"` paired with the unknown icon, for either value of `isDay`. -/
theorem condition_default_unknown (code : Int) (h : code ∉ tableCodes) (d : Bool) :
    weatherCodeToCondition code d = ("Unknown", iconUnknown) := by
  simp only [tableCodes, List.mem_cons, List.not_mem_nil, or_false, not_or] at h
  obtain ⟨h0, h1, h2, h3, h45, h48, h51, h53, h55, h56, h57, h61, h63, h65, h66, h67,
    h71, h73, h75, h77, h80, h81, h82, h85, h86, h95, h96, h99⟩ := h
  simp [weatherCodeToCondition, h0, h1, h2, h3, h45, h48, h51, h53, h55, h56, h57,
    h61, h63, h65, h66, h67, h71, h73, h75, h77, h80, h81, h82, h85, h86, h95, h96, h99]

/-- Witness for C7: code 42 is not in the table and is mapped to Unknown. -/
theorem condition_default_unknown_witness :
    weatherCodeToCondition 42 true = ("Unknown", iconUnknown) :=
  condition_default_unknown 42 (by decide) true

/-- C8: for every code in the condition table other than 0 and 1, the
`isDay` flag has no effect on the returned `(label, icon)` pair. -/
theorem condition_ignores_isDay_except_0_1 :
    ∀ c ∈ ([2, 3, 45, 48, 51, 53, 55, 56, 57, 61, 63, 65, 66, 67,
            71, 73, 75, 77, 80, 81, 82, 85, 86, 95, 96, 99] : List Int),
      weatherCodeToCondition c true = weatherCodeToCondition c false := by
  decide

/-- Witness for C8: at code 2 the two flag values give the same result. -/
theorem condition_ignores_isDay_witness :
    weatherCodeToCondition 2 true = weatherCodeToCondition 2 false :=
  condition_ignores_isDay_except_0_1 2 (by decide)

/-- The 16-element compass direction table of `windDirectionToCompass`
(source line 222). -/
def directions : List String :=
  ["N", "NNE", "NE", "ENE", "E", "ESE", "SE", "SSE",
   "S", "SSW", "SW", "WSW", "W", "WNW", "NW", "NNW"]

/-- `windDirectionToCompass` (source lines 221-225). The Go code computes
`index := int(float64(degrees)/22.5 + 0.5) % 16` and returns
`directions[index]`.

The float64 expression `float64(degrees)/22.5 + 0.5` is modelled as the
exact rational `(4*degrees + 45)/90`; Go's `int(...)` conversion truncates
toward zero, which on that rational is `Int.tdiv (4*degrees + 45) 90`, and
Go's `%` is the truncated remainder `Int.tmod`.

Fidelity of this idealization: the numerator `4*degrees + 45` is odd, so
the exact value is never an integer, and float and exact rational truncate
to the same integer whenever the accumulated float64 rounding error stays
below the distance (at least `1/90`) from the exact value to the nearest
integer. That holds throughout the compass domain `0..360` and for all
inputs of moderate magnitude, but NOT for astronomically large inputs:
at `degrees = 3588160533795281` the float64 quotient rounds to exactly
`...012.5`, adding `0.5` gives exactly `...013.0`, and Go computes index
13, whereas the exact rational yields index 12. Results below that compare
this function against the half-up-rounding formula are therefore confined
to the compass domain `0 ≤ degrees ≤ 360`, where the idealization is
exact. Sign and boundedness of the index, by contrast, are insensitive to
the rational-versus-float difference, because the float64 result has the
same sign and the same order of magnitude as the exact value.

Go's `directions[index]` panics when `index` is out of range (in
particular when it is negative); the panic is modelled as `none`. -/
def windDirectionToCompass (degrees : Int) : Option String :=
  let index := Int.tmod (Int.tdiv (4 * degrees + 45) 90) 16
  if index < 0 then none else directions.get? index.toNat

/-- Half-up rounding of a rational: `round(q) = ⌊q + 1/2⌋`. -/
def roundHalfUp (q : ℚ) : Int := Int.floor (q + 1 / 2)

/-- The compass computation as the spec words it: `round(degrees / 22.5)
mod 16` with half-up rounding, used as an index into the direction table
(mod here is the mathematical, always-nonnegative one). -/
def compassSpec (degrees : Int) : Option String :=
  directions.get? ((roundHalfUp ((degrees : ℚ) / (45 / 2)) % 16).toNat)

/-- Counterexample to C3: at `degrees = -34` the computed index is `-1`,
out of bounds for the 16-element direction table (the Go code panics), so
the function does not return one of the 16 compass labels. -/
theorem compass_not_total_counterexample :
    windDirectionToCompass (-34) = none := by decide

/-- C3 (amended to nonnegative degrees): for every `degrees ≥ 0` the
computed index is within bounds `0..15` and the function returns one of the
16 compass labels. -/
theorem compass_total_on_nonneg (degrees : Int) (h : 0 ≤ degrees) :
    ∃ s, windDirectionToCompass degrees = some s ∧ s ∈ directions := by
  have hnum : (0 : Int) ≤ 4 * degrees + 45 := by omega
  have hdiv : (0 : Int) ≤ Int.tdiv (4 * degrees + 45) 90 := Int.tdiv_nonneg hnum (by omega)
  have hmod0 : (0 : Int) ≤ Int.tmod (Int.tdiv (4 * degrees + 45) 90) 16 :=
    Int.tmod_nonneg 16 hdiv
  have hmodlt : Int.tmod (Int.tdiv (4 * degrees + 45) 90) 16 < 16 :=
    Int.tmod_lt_of_pos _ (by omega)
  set idx := Int.tmod (Int.tdiv (4 * degrees + 45) 90) 16 with hidx
  have hlt : idx.toNat < directions.length := by
    simp [directions]
    omega
  refine ⟨directions.get ⟨idx.toNat, hlt⟩, ?_, List.get_mem _ _ _⟩
  rw [windDirectionToCompass]
  simp only [← hidx]
  rw [if_neg (by omega), List.get?_eq_get hlt]

/-- Witness for C3 (amended): at `degrees = 0` the function returns a label
from the direction table. -/
theorem compass_total_on_nonneg_witness :
    ∃ s, windDirectionToCompass 0 = some s ∧ s ∈ directions :=
  compass_total_on_nonneg 0 (by decide)

/-- Counterexample to C4 as a universal statement: at `degrees = -100` the
code's truncated division and truncated remainder produce index `-3` (a
panic, modelled `none`), while `round(-100 / 22.5) mod 16 = 12` would give
`"W"`; so for negative degrees the code does not compute
`round(degrees / 22.5) mod 16` with half-up rounding. -/
theorem compass_roundHalfUp_counterexample :
    windDirectionToCompass (-100) = none ∧ compassSpec (-100) = some "W" := by
  constructor
  · decide
  · rw [compassSpec]
    norm_num [roundHalfUp]
    decide

/-- C4 (amended to the compass domain): for every `degrees` with
`0 ≤ degrees ≤ 360`, `windDirectionToCompass` computes
`round(degrees / 22.5) mod 16` with half-up rounding as an index into the
direction table; in particular all seven documented values hold. Outside
this domain the code diverges from the formula: for negative degrees it
panics (see the counterexample above), and for astronomically large
degrees float64 rounding departs from the exact computation (at
`degrees = 3588160533795281` Go yields index 13 where the formula gives
12), so the correspondence is claimed only on the bounded domain, where
the exact-rational model of the float pipeline is faithful. -/
theorem compass_matches_roundHalfUp :
    (∀ degrees : Int, 0 ≤ degrees → degrees ≤ 360 →
        windDirectionToCompass degrees = compassSpec degrees) ∧
    windDirectionToCompass 0 = some "N" ∧
    windDirectionToCompass 90 = some "E" ∧
    windDirectionToCompass 180 = some "S" ∧
    windDirectionToCompass 270 = some "W" ∧
    windDirectionToCompass 360 = some "N" ∧
    windDirectionToCompass 11 = some "N" ∧
    windDirectionToCompass 12 = some "NNE" := by
  refine ⟨?_, by decide, by decide, by decide, by decide, by decide, by decide, by decide⟩
  intro d hd _
  have h2 : Int.tdiv (4 * d + 45) 90 = (4 * d + 45) / 90 :=
    Int.tdiv_eq_ediv (by omega) (by omega)
  have hdnn : (0 : Int) ≤ Int.tdiv (4 * d + 45) 90 := Int.tdiv_nonneg (by omega) (by omega)
  have h3 : Int.tmod (Int.tdiv (4 * d + 45) 90) 16 = Int.tdiv (4 * d + 45) 90 % 16 :=
    Int.tmod_eq_emod hdnn (by omega)
  have h1 : roundHalfUp ((d : ℚ) / (45 / 2)) = (4 * d + 45) / (90 : Int) := by
    have hq : (d : ℚ) / (45 / 2) + 1 / 2 = ((4 * d + 45 : Int) : ℚ) / ((90 : ℕ) : ℚ) := by
      push_cast
      ring
    rw [roundHalfUp, hq, Rat.floor_intCast_div_natCast]
    norm_num
  have hidx : Int.tmod (Int.tdiv (4 * d + 45) 90) 16 = roundHalfUp ((d : ℚ) / (45 / 2)) % 16 := by
    rw [h3, h2, h1]
  have hnn : (0 : Int) ≤ Int.tmod (Int.tdiv (4 * d + 45) 90) 16 := Int.tmod_nonneg 16 hdnn
  rw [windDirectionToCompass, compassSpec]
  simp only [hidx] at hnn ⊢
  rw [if_neg (by omega)]

/-- Witness for C4 (amended): at `degrees = 45` the code agrees with the
half-up-rounding formula. -/
theorem compass_matches_roundHalfUp_witness :
    windDirectionToCompass 45 = compassSpec 45 :=
  compass_matches_roundHalfUp.1 45 (by decide) (by decide)

/-- The `current` block of the decoded Open-Meteo response
(`openMeteoResponse.Current`, source lines 67-78). Go `float64` fields are
carried as `ℚ`; the code only copies them. -/
structure OMCurrent where
  time : String
  temperature2m : ℚ
  apparentTemp : ℚ
  relativeHumidity : Int
  windSpeed10m : ℚ
  windDirection10m : Int
  weatherCode : Int
  isDay : Int
  precipitation : ℚ
  cloudCover : Int

/-- The `hourly` block of the decoded Open-Meteo response
(`openMeteoResponse.Hourly`, source lines 79-85): five parallel arrays. -/
structure OMHourly where
  time : List String
  temperature2m : List ℚ
  weatherCode : List Int
  precipProb : List Int
  isDay : List Int

/-- `WeatherData` (source lines 31-44): the normalized current conditions. -/
structure WeatherData where
  temperature : ℚ
  feelsLike : ℚ
  humidity : Int
  windSpeed : ℚ
  windDirection : Int
  weatherCode : Int
  isDay : Bool
  precipitation : ℚ
  cloudCover : Int
  lastUpdated : String
  condition : String
  conditionEmoji : String

/-- `HourlyForecast` (source lines 47-55): one normalized hourly entry. -/
structure HourlyForecast where
  time : String
  hour : String
  temperature : ℚ
  weatherCode : Int
  conditionEmoji : String
  precipProb : Int
  isDay : Bool

/-- Result of Go's `time.Parse("2006-01-02T15:04", s)` when it succeeds:
the five parsed numeric fields. -/
structure ParsedTime where
  year : Nat
  month : Nat
  day : Nat
  hour : Nat
  minute : Nat

/-- Numeric value of a list of decimal digit characters, most significant
first (as Go's `atoi`/`getnum` compute it on the already-split fields). -/
def natOfDigits (l : List Char) : Nat :=
  l.foldl (fun a c => a * 10 + (c.toNat - 48)) 0

/-- Go's Gregorian leap-year rule (`time.isLeap`). -/
def isLeapYear (y : Nat) : Bool :=
  y % 4 = 0 && (y % 100 ≠ 0 || y % 400 = 0)

/-- Days in a month, as Go's `time.daysIn` computes it for date
validation. -/
def daysInMonth (y m : Nat) : Nat :=
  if m = 2 then (if isLeapYear y then 29 else 28)
  else if m = 4 ∨ m = 6 ∨ m = 9 ∨ m = 11 then 30
  else 31

/-- Shared validation step of `time.Parse` on the split-out digit fields:
every character must be a decimal digit, the month must be 1..12, the day
1..daysIn(month, year), the hour 0..23 and the minute 0..59; otherwise the
parse fails. -/
def parseFields (ys ms ds hs ns : List Char) : Option ParsedTime :=
  if (ys ++ ms ++ ds ++ hs ++ ns).all Char.isDigit then
    let y := natOfDigits ys
    let mo := natOfDigits ms
    let dy := natOfDigits ds
    let hr := natOfDigits hs
    let mi := natOfDigits ns
    if 1 ≤ mo ∧ mo ≤ 12 ∧ 1 ≤ dy ∧ dy ≤ daysInMonth y mo ∧ hr ≤ 23 ∧ mi ≤ 59 then
      some ⟨y, mo, dy, hr, mi⟩
    else none
  else none

/-- Go's `time.Parse("2006-01-02T15:04", timeStr)` (used at source line
155), modelled on the string's character list. The layout demands a
4-digit year, `-`, 2-digit month, `-`, 2-digit day, `T`, a 1- or 2-digit
hour (Go's non-fixed `getnum`), `:`, and a 2-digit minute, consuming the
whole string; numeric fields are then range-checked. Any other shape
fails. -/
def parseTimestamp (s : String) : Option ParsedTime :=
  match s.data with
  | [y1, y2, y3, y4, '-', m1, m2, '-', d1, d2, 'T', h1, h2, ':', n1, n2] =>
      parseFields [y1, y2, y3, y4] [m1, m2] [d1, d2] [h1, h2] [n1, n2]
  | [y1, y2, y3, y4, '-', m1, m2, '-', d1, d2, 'T', h1, ':', n1, n2] =>
      parseFields [y1, y2, y3, y4] [m1, m2] [d1, d2] [h1] [n1, n2]
  | _ => none

/-- Go's `t.Format("3 PM")` (source line 156), which depends only on the
parsed hour: the 12-hour clock hour without padding (0 rendered as 12),
a space, and AM for hours before noon, PM otherwise. -/
def formatHour12 (hr : Nat) : String :=
  let h12 := hr % 12
  toString (if h12 = 0 then 12 else h12) ++ (if hr < 12 then " AM" else " PM")

/-- The hour-label computation of the hourly loop (source lines 153-157):
`hourDisplay` starts as the raw timestamp and is replaced by the formatted
12-hour label only when the timestamp parses. -/
def hourDisplay (timeStr : String) : String :=
  match parseTimestamp timeStr with
  | some t => formatHour12 t.hour
  | none => timeStr

/-- C6: the display hour label comes from parsing the timestamp as
`YYYY-MM-DDTHH:MM` and reformatting it as a 12-hour hour-only label —
`"2024-03-15T15:00"` yields `"3 PM"` — and any timestamp that does not
parse in that form is shown unmodified, with no error. -/
theorem hourly_hour_label :
    hourDisplay "2024-03-15T15:00" = "3 PM" ∧
    ∀ s : String, parseTimestamp s = none → hourDisplay s = s := by
  constructor
  · decide
  · intro s hs
    rw [hourDisplay, hs]

/-- Witness for C6: the unparsable timestamp of the spec is displayed
raw. -/
theorem hourly_hour_label_witness :
    hourDisplay "not-a-time" = "not-a-time" :=
  hourly_hour_label.2 "not-a-time" rfl

/-- The body of one iteration of the hourly loop (source lines 147-172),
building the `HourlyForecast` appended at index `i` for timestamp
`timeStr`. The loop guard (see `hourlyLoop`) guarantees `i` is in range
for the temperature and weather-code arrays, so the `getD` defaults are
never taken there and the lookups equal Go's direct indexing; the `get?`
matches on the is-day and precipitation-probability arrays are exactly
Go's `if i < len(...)` guards with defaults `false` and `0`. -/
def mkEntry (h : OMHourly) (i : Nat) (timeStr : String) : HourlyForecast :=
  let isDay := match h.isDay.get? i with
    | some v => v == 1
    | none => false
  { time := timeStr
    hour := hourDisplay timeStr
    temperature := h.temperature2m.getD i 0
    weatherCode := h.weatherCode.getD i 0
    conditionEmoji := (weatherCodeToCondition (h.weatherCode.getD i 0) isDay).2
    precipProb := match h.precipProb.get? i with
      | some v => v
      | none => 0
    isDay := isDay }

/-- The hourly loop of `fetchWeather` (source lines 142-173): iterate the
timestamp array with its index `i`; `break` (append nothing further) as
soon as `i` is out of range for the temperature array or the weather-code
array; otherwise append the entry for index `i`. -/
def hourlyLoop (h : OMHourly) : Nat → List String → List HourlyForecast
  | _, [] => []
  | i, timeStr :: rest =>
    if i < h.temperature2m.length ∧ i < h.weatherCode.length then
      mkEntry h i timeStr :: hourlyLoop h (i + 1) rest
    else []

/-- The full hourly normalization of `fetchWeather`: the loop started at
index 0 over the hourly timestamp array. -/
def buildHourly (h : OMHourly) : List HourlyForecast :=
  hourlyLoop h 0 h.time

/-- Construction of the normalized `WeatherData` from the decoded
`current` block (source lines 124-139). -/
def buildCurrent (c : OMCurrent) : WeatherData :=
  let ce := weatherCodeToCondition c.weatherCode (c.isDay == 1)
  { temperature := c.temperature2m
    feelsLike := c.apparentTemp
    humidity := c.relativeHumidity
    windSpeed := c.windSpeed10m
    windDirection := c.windDirection10m
    weatherCode := c.weatherCode
    isDay := c.isDay == 1
    precipitation := c.precipitation
    cloudCover := c.cloudCover
    lastUpdated := c.time
    condition := ce.1
    conditionEmoji := ce.2 }

/-- Length of the hourly loop started at index `i`: it walks the timestamp
list and stops when `i` reaches the length of the temperature or
weather-code array. -/
lemma hourlyLoop_length (h : OMHourly) (ts : List String) (i : Nat) :
    (hourlyLoop h i ts).length =
      min ts.length (min h.temperature2m.length h.weatherCode.length - i) := by
  induction ts generalizing i with
  | nil => simp [hourlyLoop]
  | cons t rest ih =>
    rw [hourlyLoop]
    split
    · rename_i hc
      rw [List.length_cons, List.length_cons, ih (i + 1)]
      omega
    · rename_i hc
      rw [List.length_nil, List.length_cons]
      omega

/-- Characterization of the entries of the hourly loop: the entry at
position `k` of the loop started at index `i` exists exactly when the
guard held up to there, and is `mkEntry` at index `i + k` for the
timestamp at position `k`. -/
lemma hourlyLoop_get? (h : OMHourly) (ts : List String) (i k : Nat)
    (e : HourlyForecast) (he : (hourlyLoop h i ts).get? k = some e) :
    ∃ timeStr, ts.get? k = some timeStr ∧
      i + k < h.temperature2m.length ∧ i + k < h.weatherCode.length ∧
      e = mkEntry h (i + k) timeStr := by
  induction ts generalizing i k with
  | nil => simp [hourlyLoop] at he
  | cons t rest ih =>
    rw [hourlyLoop] at he
    split at he
    · rename_i hc
      cases k with
      | zero =>
        simp only [List.get?_cons_zero, Option.some.injEq] at he
        exact ⟨t, rfl, by omega, by omega, by rw [← he]; congr 1⟩
      | succ k =>
        simp only [List.get?_cons_succ] at he
        obtain ⟨timeStr, h1, h2, h3, h4⟩ := ih (i + 1) k he
        exact ⟨timeStr, h1, by omega, by omega, by rw [h4]; congr 1; omega⟩
    · simp at he

/-- The `isDay` field of an hourly entry is Go's guarded lookup with
default `false`. -/
lemma mkEntry_isDay (h : OMHourly) (i : Nat) (timeStr : String) :
    (mkEntry h i timeStr).isDay =
      match h.isDay.get? i with
      | some v => v == 1
      | none => false := rfl

/-- The `precipProb` field of an hourly entry is Go's guarded lookup with
default `0`. -/
lemma mkEntry_precipProb (h : OMHourly) (i : Nat) (timeStr : String) :
    (mkEntry h i timeStr).precipProb =
      match h.precipProb.get? i with
      | some v => v
      | none => 0 := rfl

/-- C2: the normalized hourly sequence iterates the timestamp array in
order and stops at the first index out of range for the temperature or
weather-code array, so its length is the minimum of the three lengths; in
particular, temperature length 24, weather-code length 20 and timestamp
length at least 20 give exactly 20 entries. -/
theorem hourly_stops_at_loadbearing :
    (∀ h : OMHourly, (buildHourly h).length =
        min h.time.length (min h.temperature2m.length h.weatherCode.length)) ∧
    (∀ h : OMHourly, h.temperature2m.length = 24 → h.weatherCode.length = 20 →
        20 ≤ h.time.length → (buildHourly h).length = 20) := by
  have key : ∀ h : OMHourly, (buildHourly h).length =
      min h.time.length (min h.temperature2m.length h.weatherCode.length) := by
    intro h
    rw [buildHourly, hourlyLoop_length]
    omega
  refine ⟨key, ?_⟩
  intro h h24 h20 hts
  rw [key h, h24, h20]
  omega

/-- Hourly block of the spec's truncation example: 20 timestamps, 24
temperatures, 20 weather codes. -/
def exampleBlock2420 : OMHourly :=
  { time := List.replicate 20 "2024-03-15T15:00"
    temperature2m := List.replicate 24 0
    weatherCode := List.replicate 20 0
    precipProb := []
    isDay := [] }

/-- Witness for C2: the 24-temperature / 20-weather-code block yields
exactly 20 entries. -/
theorem hourly_stops_at_loadbearing_witness :
    (buildHourly exampleBlock2420).length = 20 :=
  hourly_stops_at_loadbearing.2 exampleBlock2420 (by simp [exampleBlock2420])
    (by simp [exampleBlock2420]) (by simp [exampleBlock2420])

/-- C5: an hourly entry produced at index `i` has `isDay = false` whenever
the day/night array has length at most `i`, and precipitation probability
`0` whenever the precipitation-probability array has length at most `i`;
the entry is still produced (the hypothesis exhibits it) and no error is
raised. -/
theorem hourly_short_array_defaults (h : OMHourly) (i : Nat) (e : HourlyForecast)
    (he : (buildHourly h).get? i = some e) :
    (h.isDay.length ≤ i → e.isDay = false) ∧
    (h.precipProb.length ≤ i → e.precipProb = 0) := by
  obtain ⟨t, ht, h1, h2, hee⟩ := hourlyLoop_get? h h.time 0 i e he
  subst hee
  constructor
  · intro hle
    rw [mkEntry_isDay, List.get?_eq_none.mpr (by omega)]
  · intro hle
    rw [mkEntry_precipProb, List.get?_eq_none.mpr (by omega)]

/-- Hourly block with populated load-bearing arrays but empty is-day and
precipitation-probability arrays. -/
def emptyIsDayBlock : OMHourly :=
  { time := ["not-a-time"]
    temperature2m := [70]
    weatherCode := [3]
    precipProb := []
    isDay := [] }

/-- Witness for C5: with an empty is-day array the produced entry has
`isDay = false` and precipitation probability 0. -/
theorem hourly_short_array_defaults_witness :
    (buildHourly emptyIsDayBlock).get? 0 = some (mkEntry emptyIsDayBlock 0 "not-a-time") ∧
    (mkEntry emptyIsDayBlock 0 "not-a-time").isDay = false ∧
    (mkEntry emptyIsDayBlock 0 "not-a-time").precipProb = 0 :=
  ⟨rfl, (hourly_short_array_defaults emptyIsDayBlock 0 _ rfl).1 (by decide),
    (hourly_short_array_defaults emptyIsDayBlock 0 _ rfl).2 (by decide)⟩

/-- C9: the normalized current conditions copy the provider's current
fields verbatim, except that the is-day integer becomes the boolean
`isDay`, and the condition label and icon come from the condition mapping
applied to the current weather code with the current is-day flag. -/
theorem current_copies_fields (c : OMCurrent) :
    (buildCurrent c).temperature = c.temperature2m ∧
    (buildCurrent c).feelsLike = c.apparentTemp ∧
    (buildCurrent c).humidity = c.relativeHumidity ∧
    (buildCurrent c).windSpeed = c.windSpeed10m ∧
    (buildCurrent c).windDirection = c.windDirection10m ∧
    (buildCurrent c).weatherCode = c.weatherCode ∧
    (buildCurrent c).precipitation = c.precipitation ∧
    (buildCurrent c).cloudCover = c.cloudCover ∧
    (buildCurrent c).lastUpdated = c.time ∧
    (buildCurrent c).isDay = (c.isDay == 1) ∧
    (buildCurrent c).condition = (weatherCodeToCondition c.weatherCode (c.isDay == 1)).1 ∧
    (buildCurrent c).conditionEmoji = (weatherCodeToCondition c.weatherCode (c.isDay == 1)).2 :=
  ⟨rfl, rfl, rfl, rfl, rfl, rfl, rfl, rfl, rfl, rfl, rfl, rfl⟩

/-- C10: the is-day integer-to-boolean conversion — for the current
conditions and for every hourly entry whose index is in range of the
is-day array — yields `true` exactly when the provider integer equals 1;
any other value (0, 2, negative) yields `false`, not an error. -/
theorem isDay_true_iff_one :
    (∀ c : OMCurrent, ((buildCurrent c).isDay = true ↔ c.isDay = 1)) ∧
    (∀ (h : OMHourly) (i : Nat) (e : HourlyForecast) (v : Int),
      (buildHourly h).get? i = some e → h.isDay.get? i = some v →
      (e.isDay = true ↔ v = 1)) := by
  constructor
  · intro c
    simp [buildCurrent]
  · intro h i e v he hv
    obtain ⟨t, ht, h1, h2, hee⟩ := hourlyLoop_get? h h.time 0 i e he
    subst hee
    rw [mkEntry_isDay, Nat.zero_add, hv]
    simp

/-- Witness for C1: the table read at code 45 during the day gives the
Foggy pair. -/
theorem condition_table_exact_witness :
    weatherCodeToCondition 45 true = ("Foggy", iconFog) :=
  condition_table_exact.2.2.2.2.1 true 45 (by decide)

/-- Provider current block with is-day integer 2 (neither 0 nor 1). -/
def currentIsDay2 : OMCurrent :=
  { time := "t"
    temperature2m := 0
    apparentTemp := 0
    relativeHumidity := 0
    windSpeed10m := 0
    windDirection10m := 0
    weatherCode := 0
    isDay := 2
    precipitation := 0
    cloudCover := 0 }

/-- Hourly block whose is-day array holds the integer 2 at index 0. -/
def hourlyIsDay2 : OMHourly :=
  { time := ["t"]
    temperature2m := [1]
    weatherCode := [0]
    precipProb := [5]
    isDay := [2] }

/-- Witness for C10: the is-day integer 2 converts to `false` for the
current conditions and for the hourly entry at index 0. -/
theorem isDay_true_iff_one_witness :
    ((buildCurrent currentIsDay2).isDay = true ↔ (2 : Int) = 1) ∧
    ((mkEntry hourlyIsDay2 0 "t").isDay = true ↔ (2 : Int) = 1) :=
  ⟨isDay_true_iff_one.1 currentIsDay2,
    isDay_true_iff_one.2 hourlyIsDay2 0 (mkEntry hourlyIsDay2 0 "t") 2 rfl rfl⟩
